import Mathlib

/-!
Verification of the render-mode resolver of `src/pages/signin/SignInPage.js`.

The only non-trivial logic of the file is the pure function `getRenderOptions`,
which maps account/credential state to a record of boolean render flags.
We embed its data model and the function itself, and prove the specified
properties of the flag computation.
-/

namespace SignInPage

/-- Modelled from the spec: `getPlatform() -> enum{web, desktop, ios, android, ...}`.
The source only compares the platform against `CONST.PLATFORM.WEB` and
`CONST.PLATFORM.DESKTOP`. -/
inductive Platform where
  | web
  | desktop
  | ios
  | android
  deriving BEq, DecidableEq, Repr

/-- Modelled from the spec: `loadingForm (enum|absent)`. The values of
`CONST.FORMS` are outside this file; the source only compares `loadingForm`
against `CONST.FORMS.LOGIN_FORM`. -/
inductive Form where
  | loginForm
  | validateCodeForm
  | resendValidationForm
  deriving BEq, DecidableEq, Repr

/-- The `account` prop: every field of the `PropTypes.shape` is optional
(`none` models a JS `undefined` field).  `Boolean(account.x)` in the source
becomes `Option.getD x false`. -/
structure Account where
  errors : Option (List (String × String)) := none
  validated : Option Bool := none
  primaryLogin : Option String := none
  requiresTwoFactorAuth : Option Bool := none
  hasEmailDeliveryFailure : Option Bool := none
  isLoading : Option Bool := none
  loadingForm : Option Form := none
  isSAMLEnabled : Option Bool := none
  isSAMLRequired : Option Bool := none
  deriving DecidableEq, Repr

/-- `_.isEmpty(account)`: the account object has no fields set. -/
def Account.isEmpty (a : Account) : Bool :=
  a.errors.isNone && a.validated.isNone && a.primaryLogin.isNone &&
  a.requiresTwoFactorAuth.isNone && a.hasEmailDeliveryFailure.isNone &&
  a.isLoading.isNone && a.loadingForm.isNone && a.isSAMLEnabled.isNone &&
  a.isSAMLRequired.isNone

/-- The destructured parameter object of `getRenderOptions`. -/
structure SignInInput where
  hasLogin : Bool
  hasValidateCode : Bool
  account : Account
  isPrimaryLogin : Bool
  isUsingMagicCode : Bool
  isClientTheLeader : Bool
  deriving DecidableEq, Repr

/-- The ambient environment read inside `getRenderOptions`:
`Permissions.canUseSAML()` and `getPlatform()`. -/
structure Env where
  canUseSAML : Bool
  platform : Platform
  deriving DecidableEq, Repr

/-- The condition of the SAML gate:
`Permissions.canUseSAML() || platform === CONST.PLATFORM.WEB || platform === CONST.PLATFORM.DESKTOP`. -/
def isSAMLAllowed (env : Env) : Bool :=
  env.canUseSAML || env.platform == Platform.web || env.platform == Platform.desktop

/-- The record returned by `getRenderOptions`. -/
structure RenderOptions where
  shouldShowLoginForm : Bool
  shouldShowEmailDeliveryFailurePage : Bool
  shouldShowUnlinkLoginForm : Bool
  shouldShowValidateCodeForm : Bool
  shouldShowChooseSSOOrMagicCode : Bool
  shouldInitiateSAMLLogin : Bool
  shouldShowWelcomeHeader : Bool
  shouldShowWelcomeText : Bool
  deriving DecidableEq, Repr

/-- Direct translation of `getRenderOptions` (SignInPage.js lines 88-128).
The two `let`-mutations of the source (the SAML gate and the SAML-required
override of `shouldShowLoginForm`) are rendered as conditionals. -/
def getRenderOptions (env : Env) (input : SignInInput) : RenderOptions :=
  let hasAccount := !input.account.isEmpty
  let isSAMLEnabled := input.account.isSAMLEnabled.getD false
  let isSAMLRequired := input.account.isSAMLRequired.getD false
  let hasEmailDeliveryFailure := input.account.hasEmailDeliveryFailure.getD false
  let shouldInitiateSAMLLogin :=
    isSAMLAllowed env &&
      (hasAccount && input.hasLogin && isSAMLRequired &&
        (input.account.loadingForm == some Form.loginForm))
  let shouldShowChooseSSOOrMagicCode :=
    isSAMLAllowed env &&
      (hasAccount && input.hasLogin && isSAMLEnabled && !isSAMLRequired &&
        !input.isUsingMagicCode)
  let shouldShowLoginForm :=
    if isSAMLRequired && !shouldInitiateSAMLLogin then input.isClientTheLeader
    else input.isClientTheLeader && !input.hasLogin && !input.hasValidateCode
  let shouldShowEmailDeliveryFailurePage :=
    input.hasLogin && hasEmailDeliveryFailure && !shouldShowChooseSSOOrMagicCode &&
      !shouldInitiateSAMLLogin
  let isUnvalidatedSecondaryLogin :=
    input.hasLogin && !input.isPrimaryLogin && !(input.account.validated.getD false) &&
      !hasEmailDeliveryFailure
  let shouldShowValidateCodeForm :=
    hasAccount && (input.hasLogin || input.hasValidateCode) &&
      !isUnvalidatedSecondaryLogin && !hasEmailDeliveryFailure &&
      !shouldShowChooseSSOOrMagicCode && !isSAMLRequired
  let shouldShowWelcomeHeader :=
    shouldShowLoginForm || shouldShowValidateCodeForm ||
      shouldShowChooseSSOOrMagicCode || isUnvalidatedSecondaryLogin
  let shouldShowWelcomeText :=
    shouldShowLoginForm || shouldShowValidateCodeForm ||
      shouldShowChooseSSOOrMagicCode || !input.isClientTheLeader
  { shouldShowLoginForm := shouldShowLoginForm
    shouldShowEmailDeliveryFailurePage := shouldShowEmailDeliveryFailurePage
    shouldShowUnlinkLoginForm := isUnvalidatedSecondaryLogin
    shouldShowValidateCodeForm := shouldShowValidateCodeForm
    shouldShowChooseSSOOrMagicCode := shouldShowChooseSSOOrMagicCode
    shouldInitiateSAMLLogin := shouldInitiateSAMLLogin
    shouldShowWelcomeHeader := shouldShowWelcomeHeader
    shouldShowWelcomeText := shouldShowWelcomeText }

/-- The flag computation of `getRenderOptions` as a function of the twelve
booleans it actually depends on; `getRenderOptions` coincides with it
definitionally (see `getRenderOptions_eq_core`). -/
def renderCore (sa ha se sr edf va lf hl hv ip im ic : Bool) : RenderOptions :=
  let shouldInitiateSAMLLogin := sa && (ha && hl && sr && lf)
  let shouldShowChooseSSOOrMagicCode := sa && (ha && hl && se && !sr && !im)
  let shouldShowLoginForm :=
    if sr && !shouldInitiateSAMLLogin then ic else ic && !hl && !hv
  let shouldShowEmailDeliveryFailurePage :=
    hl && edf && !shouldShowChooseSSOOrMagicCode && !shouldInitiateSAMLLogin
  let isUnvalidatedSecondaryLogin := hl && !ip && !va && !edf
  let shouldShowValidateCodeForm :=
    ha && (hl || hv) && !isUnvalidatedSecondaryLogin && !edf &&
      !shouldShowChooseSSOOrMagicCode && !sr
  let shouldShowWelcomeHeader :=
    shouldShowLoginForm || shouldShowValidateCodeForm ||
      shouldShowChooseSSOOrMagicCode || isUnvalidatedSecondaryLogin
  let shouldShowWelcomeText :=
    shouldShowLoginForm || shouldShowValidateCodeForm ||
      shouldShowChooseSSOOrMagicCode || !ic
  { shouldShowLoginForm := shouldShowLoginForm
    shouldShowEmailDeliveryFailurePage := shouldShowEmailDeliveryFailurePage
    shouldShowUnlinkLoginForm := isUnvalidatedSecondaryLogin
    shouldShowValidateCodeForm := shouldShowValidateCodeForm
    shouldShowChooseSSOOrMagicCode := shouldShowChooseSSOOrMagicCode
    shouldInitiateSAMLLogin := shouldInitiateSAMLLogin
    shouldShowWelcomeHeader := shouldShowWelcomeHeader
    shouldShowWelcomeText := shouldShowWelcomeText }

/-- Number of "primary form" flags that are set. -/
def primaryFlagCount (r : RenderOptions) : Nat :=
  r.shouldShowLoginForm.toNat + r.shouldShowValidateCodeForm.toNat +
  r.shouldShowUnlinkLoginForm.toNat + r.shouldShowChooseSSOOrMagicCode.toNat +
  r.shouldShowEmailDeliveryFailurePage.toNat

/-- Environment of a native mobile client: no SAML beta, platform ios. -/
def envMobile : Env := { canUseSAML := false, platform := Platform.ios }

/-- Environment of a web client (SAML allowed by platform). -/
def envWeb : Env := { canUseSAML := false, platform := Platform.web }

/-- SAML-required account with an email delivery failure, login entered,
leader client; here the SAML fallback keeps the login form visible. -/
def samlEdfInput : SignInInput :=
  { hasLogin := true, hasValidateCode := false,
    account := { isSAMLRequired := some true, hasEmailDeliveryFailure := some true },
    isPrimaryLogin := true, isUsingMagicCode := false, isClientTheLeader := true }

/-- SAML-required account, no credentials yet (user bounced out of the SSO
portal), leader client. -/
def samlBounceInput : SignInInput :=
  { hasLogin := false, hasValidateCode := false,
    account := { isSAMLRequired := some true },
    isPrimaryLogin := true, isUsingMagicCode := false, isClientTheLeader := true }

/-- Email delivery failure together with a SAML-required account whose login
form is loading: the SAML redirect wins over the failure page. -/
def samlMaskedEdfInput : SignInInput :=
  { hasLogin := true, hasValidateCode := false,
    account := { hasEmailDeliveryFailure := some true, isSAMLEnabled := some false,
                 isSAMLRequired := some true, loadingForm := some Form.loginForm },
    isPrimaryLogin := true, isUsingMagicCode := false, isClientTheLeader := true }

/-- Email delivery failure on a non-SAML account with a login entered. -/
def edfInput : SignInInput :=
  { hasLogin := true, hasValidateCode := false,
    account := { hasEmailDeliveryFailure := some true, isSAMLEnabled := some false },
    isPrimaryLogin := true, isUsingMagicCode := false, isClientTheLeader := true }

/-- SAML-required account whose login form is currently loading. -/
def samlLoadingInput : SignInInput :=
  { hasLogin := true, hasValidateCode := false,
    account := { isSAMLRequired := some true, loadingForm := some Form.loginForm },
    isPrimaryLogin := true, isUsingMagicCode := false, isClientTheLeader := true }

/-- SAML enabled but not required, login entered, not using magic codes. -/
def ssoEnabledInput : SignInInput :=
  { hasLogin := true, hasValidateCode := false,
    account := { isSAMLEnabled := some true, isSAMLRequired := some false },
    isPrimaryLogin := true, isUsingMagicCode := false, isClientTheLeader := true }

/-- Leader client with no credentials entered and an empty account. -/
def freshLeaderInput : SignInInput :=
  { hasLogin := false, hasValidateCode := false, account := {},
    isPrimaryLogin := true, isUsingMagicCode := false, isClientTheLeader := true }

/-- Plain input used to exercise determinism. -/
def plainInput : SignInInput :=
  { hasLogin := true, hasValidateCode := false,
    account := { validated := some true },
    isPrimaryLogin := true, isUsingMagicCode := false, isClientTheLeader := true }

/-- Secondary (non-primary) unvalidated login. -/
def secondaryLoginInput : SignInInput :=
  { hasLogin := true, hasValidateCode := false,
    account := { validated := some false },
    isPrimaryLogin := false, isUsingMagicCode := false, isClientTheLeader := true }

/-- Credentials present but the account record is empty. -/
def emptyAccountInput : SignInInput :=
  { hasLogin := true, hasValidateCode := true, account := {},
    isPrimaryLogin := false, isUsingMagicCode := false, isClientTheLeader := true }

theorem getRenderOptions_eq_core (env : Env) (i : SignInInput) :
    getRenderOptions env i =
      renderCore (isSAMLAllowed env) (!i.account.isEmpty)
        (i.account.isSAMLEnabled.getD false) (i.account.isSAMLRequired.getD false)
        (i.account.hasEmailDeliveryFailure.getD false)
        (i.account.validated.getD false)
        (i.account.loadingForm == some Form.loginForm)
        i.hasLogin i.hasValidateCode i.isPrimaryLogin i.isUsingMagicCode
        i.isClientTheLeader := rfl

theorem renderCore_exclusive (sa ha se sr edf va lf hl hv ip im ic : Bool) :
    primaryFlagCount (renderCore sa ha se sr edf va lf hl hv ip im ic) ≤ 1 ∨
    (primaryFlagCount (renderCore sa ha se sr edf va lf hl hv ip im ic) = 2 ∧
      (((renderCore sa ha se sr edf va lf hl hv ip im ic).shouldShowLoginForm &&
          (renderCore sa ha se sr edf va lf hl hv ip im ic).shouldShowEmailDeliveryFailurePage) = true ∨
        ((renderCore sa ha se sr edf va lf hl hv ip im ic).shouldShowLoginForm &&
          (renderCore sa ha se sr edf va lf hl hv ip im ic).shouldShowUnlinkLoginForm) = true ∨
        ((renderCore sa ha se sr edf va lf hl hv ip im ic).shouldShowChooseSSOOrMagicCode &&
          (renderCore sa ha se sr edf va lf hl hv ip im ic).shouldShowUnlinkLoginForm) = true)) := by
  revert sa ha se sr edf va lf hl hv ip im ic
  decide

/-- Claim C1, counterexample: with a SAML-required account, an email delivery
failure, a login entered and a leader client (on a platform where SAML is not
allowed), `getRenderOptions` sets both `shouldShowLoginForm` and
`shouldShowEmailDeliveryFailurePage`, while `shouldShowUnlinkLoginForm` is
false — two primary form flags are true and the pair is not the one the claim
permits. -/
theorem loginForm_and_emailDeliveryFailurePage_coexist :
    (getRenderOptions envMobile samlEdfInput).shouldShowLoginForm = true ∧
    (getRenderOptions envMobile samlEdfInput).shouldShowEmailDeliveryFailurePage = true ∧
    (getRenderOptions envMobile samlEdfInput).shouldShowUnlinkLoginForm = false := by
  decide

/-- Claim C1, amended: at most one of the five form flags is true, except that
exactly two may be true in precisely these combinations: `shouldShowLoginForm`
with `shouldShowEmailDeliveryFailurePage`, `shouldShowLoginForm` with
`shouldShowUnlinkLoginForm` (both via the SAML-required fallback), or
`shouldShowChooseSSOOrMagicCode` with `shouldShowUnlinkLoginForm`; in
particular `shouldShowUnlinkLoginForm` and `shouldShowEmailDeliveryFailurePage`
are never both true. -/
theorem primaryForm_flags_near_exclusive (env : Env) (i : SignInInput) :
    primaryFlagCount (getRenderOptions env i) ≤ 1 ∨
    (primaryFlagCount (getRenderOptions env i) = 2 ∧
      (((getRenderOptions env i).shouldShowLoginForm &&
          (getRenderOptions env i).shouldShowEmailDeliveryFailurePage) = true ∨
        ((getRenderOptions env i).shouldShowLoginForm &&
          (getRenderOptions env i).shouldShowUnlinkLoginForm) = true ∨
        ((getRenderOptions env i).shouldShowChooseSSOOrMagicCode &&
          (getRenderOptions env i).shouldShowUnlinkLoginForm) = true)) := by
  rw [getRenderOptions_eq_core]
  exact renderCore_exclusive _ _ _ _ _ _ _ _ _ _ _ _

theorem renderCore_samlRequired (sa ha se sr edf va lf hl hv ip im ic : Bool)
    (hsr : sr = true)
    (hinit : (renderCore sa ha se sr edf va lf hl hv ip im ic).shouldInitiateSAMLLogin = false) :
    (renderCore sa ha se sr edf va lf hl hv ip im ic).shouldShowLoginForm = ic := by
  revert hsr hinit
  revert sa ha se sr edf va lf hl hv ip im ic
  decide

/-- Claim C2: when the account requires SAML and the computed
`shouldInitiateSAMLLogin` is false, the returned `shouldShowLoginForm` equals
`isClientTheLeader`, whatever `hasLogin` and `hasValidateCode` are. -/
theorem samlRequired_without_initiate_shows_loginForm_iff_leader
    (env : Env) (i : SignInInput)
    (hsr : i.account.isSAMLRequired.getD false = true)
    (hinit : (getRenderOptions env i).shouldInitiateSAMLLogin = false) :
    (getRenderOptions env i).shouldShowLoginForm = i.isClientTheLeader := by
  rw [getRenderOptions_eq_core] at hinit ⊢
  exact renderCore_samlRequired _ _ _ _ _ _ _ _ _ _ _ _ hsr hinit

/-- Witness for claim C2 at a concrete input. -/
theorem samlRequired_without_initiate_witness :
    samlBounceInput.account.isSAMLRequired.getD false = true ∧
    (getRenderOptions envMobile samlBounceInput).shouldInitiateSAMLLogin = false ∧
    (getRenderOptions envMobile samlBounceInput).shouldShowLoginForm =
      samlBounceInput.isClientTheLeader :=
  ⟨by decide, by decide,
    samlRequired_without_initiate_shows_loginForm_iff_leader envMobile samlBounceInput
      (by decide) (by decide)⟩

/-- Claim C3, counterexample: with an email delivery failure, a login entered
and SAML not enabled — but SAML required, the login form loading, and the web
platform — `getRenderOptions` initiates the SAML login and leaves
`shouldShowEmailDeliveryFailurePage` false, contradicting the claim that the
failure page is shown for all values of the remaining inputs. -/
theorem emailDeliveryFailurePage_suppressed_by_saml_initiate :
    samlMaskedEdfInput.account.hasEmailDeliveryFailure.getD false = true ∧
    samlMaskedEdfInput.hasLogin = true ∧
    samlMaskedEdfInput.account.isSAMLEnabled.getD false = false ∧
    (getRenderOptions envWeb samlMaskedEdfInput).shouldShowEmailDeliveryFailurePage = false := by
  decide

theorem renderCore_edf (sa ha se sr edf va lf hl hv ip im ic : Bool)
    (hedf : edf = true) (hhl : hl = true) (hse : se = false) :
    (renderCore sa ha se sr edf va lf hl hv ip im ic).shouldShowValidateCodeForm = false ∧
    ((renderCore sa ha se sr edf va lf hl hv ip im ic).shouldInitiateSAMLLogin = false →
      (renderCore sa ha se sr edf va lf hl hv ip im ic).shouldShowEmailDeliveryFailurePage = true) := by
  revert hedf hhl hse
  revert sa ha se sr edf va lf hl hv ip im ic
  decide

/-- Claim C3, amended: with an email delivery failure, a login entered and SAML
not enabled, `shouldShowValidateCodeForm` is always false, and
`shouldShowEmailDeliveryFailurePage` is true whenever additionally
`shouldInitiateSAMLLogin` is false. -/
theorem emailDeliveryFailurePage_amended (env : Env) (i : SignInInput)
    (hedf : i.account.hasEmailDeliveryFailure.getD false = true)
    (hhl : i.hasLogin = true)
    (hse : i.account.isSAMLEnabled.getD false = false) :
    (getRenderOptions env i).shouldShowValidateCodeForm = false ∧
    ((getRenderOptions env i).shouldInitiateSAMLLogin = false →
      (getRenderOptions env i).shouldShowEmailDeliveryFailurePage = true) := by
  rw [getRenderOptions_eq_core]
  exact renderCore_edf _ _ _ _ _ _ _ _ _ _ _ _ hedf hhl hse

/-- Witness for the amended claim C3 at a concrete input. -/
theorem emailDeliveryFailurePage_amended_witness :
    edfInput.account.hasEmailDeliveryFailure.getD false = true ∧
    edfInput.hasLogin = true ∧
    edfInput.account.isSAMLEnabled.getD false = false ∧
    (getRenderOptions envWeb edfInput).shouldInitiateSAMLLogin = false ∧
    (getRenderOptions envWeb edfInput).shouldShowValidateCodeForm = false ∧
    (getRenderOptions envWeb edfInput).shouldShowEmailDeliveryFailurePage = true :=
  ⟨by decide, by decide, by decide, by decide,
    (emailDeliveryFailurePage_amended envWeb edfInput (by decide) (by decide) (by decide)).1,
    (emailDeliveryFailurePage_amended envWeb edfInput (by decide) (by decide) (by decide)).2
      (by decide)⟩

theorem renderCore_vcf (sa ha se sr edf va lf hl hv ip im ic : Bool) :
    (renderCore sa ha se sr edf va lf hl hv ip im ic).shouldShowValidateCodeForm =
      (ha && (hl || hv) && !(hl && !ip && !va && !edf) && !edf &&
        !(renderCore sa ha se sr edf va lf hl hv ip im ic).shouldShowChooseSSOOrMagicCode &&
        !sr) := by
  revert sa ha se sr edf va lf hl hv ip im ic
  decide

/-- Claim C4: `shouldShowValidateCodeForm` is true exactly when the account is
non-empty, a login or validate code is present, the login is not an
unvalidated secondary login, there is no email delivery failure, the SSO
chooser is not shown, and SAML is not required. -/
theorem validateCodeForm_characterization (env : Env) (i : SignInInput) :
    (getRenderOptions env i).shouldShowValidateCodeForm =
      (!i.account.isEmpty && (i.hasLogin || i.hasValidateCode) &&
        !(i.hasLogin && !i.isPrimaryLogin && !(i.account.validated.getD false) &&
          !(i.account.hasEmailDeliveryFailure.getD false)) &&
        !(i.account.hasEmailDeliveryFailure.getD false) &&
        !(getRenderOptions env i).shouldShowChooseSSOOrMagicCode &&
        !(i.account.isSAMLRequired.getD false)) := by
  rw [getRenderOptions_eq_core]
  exact renderCore_vcf _ _ _ _ _ _ _ _ _ _ _ _

theorem renderCore_saml_gate (sa ha se sr edf va lf hl hv ip im ic : Bool) :
    (sa = true →
      (renderCore sa ha se sr edf va lf hl hv ip im ic).shouldInitiateSAMLLogin =
        (ha && hl && sr && lf)) ∧
    (sa = false →
      (renderCore sa ha se sr edf va lf hl hv ip im ic).shouldInitiateSAMLLogin = false ∧
      (renderCore sa ha se sr edf va lf hl hv ip im ic).shouldShowChooseSSOOrMagicCode = false) := by
  revert sa ha se sr edf va lf hl hv ip im ic
  decide

/-- Claim C5: when SAML is permitted (feature flag, or platform web/desktop),
`shouldInitiateSAMLLogin` is true exactly when the account is non-empty, a
login is entered, SAML is required and the login form is loading; when SAML is
not permitted, both `shouldInitiateSAMLLogin` and
`shouldShowChooseSSOOrMagicCode` are false. -/
theorem saml_gate_characterization (env : Env) (i : SignInInput) :
    (isSAMLAllowed env = true →
      (getRenderOptions env i).shouldInitiateSAMLLogin =
        (!i.account.isEmpty && i.hasLogin && i.account.isSAMLRequired.getD false &&
          (i.account.loadingForm == some Form.loginForm))) ∧
    (isSAMLAllowed env = false →
      (getRenderOptions env i).shouldInitiateSAMLLogin = false ∧
      (getRenderOptions env i).shouldShowChooseSSOOrMagicCode = false) := by
  rw [getRenderOptions_eq_core]
  exact renderCore_saml_gate _ _ _ _ _ _ _ _ _ _ _ _

/-- Witness for claim C5, exercising both the permitted and the forbidden
branch of the SAML gate at concrete inputs. -/
theorem saml_gate_characterization_witness :
    (isSAMLAllowed envWeb = true ∧
      (getRenderOptions envWeb samlLoadingInput).shouldInitiateSAMLLogin =
        (!samlLoadingInput.account.isEmpty && samlLoadingInput.hasLogin &&
          samlLoadingInput.account.isSAMLRequired.getD false &&
          (samlLoadingInput.account.loadingForm == some Form.loginForm))) ∧
    (isSAMLAllowed envMobile = false ∧
      (getRenderOptions envMobile samlLoadingInput).shouldInitiateSAMLLogin = false ∧
      (getRenderOptions envMobile samlLoadingInput).shouldShowChooseSSOOrMagicCode = false) :=
  ⟨⟨by decide, (saml_gate_characterization envWeb samlLoadingInput).1 (by decide)⟩,
   ⟨by decide, (saml_gate_characterization envMobile samlLoadingInput).2 (by decide)⟩⟩

theorem renderCore_sso (sa ha se sr edf va lf hl hv ip im ic : Bool)
    (hsa : sa = true) (hha : ha = true) (hse : se = true) (hsr : sr = false)
    (him : im = false) (hhl : hl = true) :
    (renderCore sa ha se sr edf va lf hl hv ip im ic).shouldShowChooseSSOOrMagicCode = true ∧
    (renderCore sa ha se sr edf va lf hl hv ip im ic).shouldShowValidateCodeForm = false := by
  revert hsa hha hse hsr him hhl
  revert sa ha se sr edf va lf hl hv ip im ic
  decide

/-- Claim C6: on the web platform, with a non-empty account where SAML is
enabled but not required, a login entered and magic codes not chosen,
`getRenderOptions` shows the SSO-or-magic-code chooser and not the validate
code form. -/
theorem sso_chooser_on_web (env : Env) (i : SignInInput)
    (hplat : env.platform = Platform.web)
    (hacc : i.account.isEmpty = false)
    (hse : i.account.isSAMLEnabled.getD false = true)
    (hsr : i.account.isSAMLRequired.getD false = false)
    (him : i.isUsingMagicCode = false)
    (hhl : i.hasLogin = true) :
    (getRenderOptions env i).shouldShowChooseSSOOrMagicCode = true ∧
    (getRenderOptions env i).shouldShowValidateCodeForm = false := by
  have hsa : isSAMLAllowed env = true := by
    unfold isSAMLAllowed
    rw [hplat]
    cases hb : env.canUseSAML <;> rfl
  have hha : (!i.account.isEmpty) = true := by rw [hacc]; rfl
  rw [getRenderOptions_eq_core]
  exact renderCore_sso _ _ _ _ _ _ _ _ _ _ _ _ hsa hha hse hsr him hhl

/-- Witness for claim C6 at a concrete input. -/
theorem sso_chooser_on_web_witness :
    envWeb.platform = Platform.web ∧
    ssoEnabledInput.account.isEmpty = false ∧
    ssoEnabledInput.account.isSAMLEnabled.getD false = true ∧
    ssoEnabledInput.account.isSAMLRequired.getD false = false ∧
    ssoEnabledInput.isUsingMagicCode = false ∧
    ssoEnabledInput.hasLogin = true ∧
    (getRenderOptions envWeb ssoEnabledInput).shouldShowChooseSSOOrMagicCode = true ∧
    (getRenderOptions envWeb ssoEnabledInput).shouldShowValidateCodeForm = false :=
  ⟨by decide, by decide, by decide, by decide, by decide, by decide,
    (sso_chooser_on_web envWeb ssoEnabledInput (by decide) (by decide) (by decide)
      (by decide) (by decide) (by decide)).1,
    (sso_chooser_on_web envWeb ssoEnabledInput (by decide) (by decide) (by decide)
      (by decide) (by decide) (by decide)).2⟩

theorem renderCore_leader_fresh (sa ha se sr edf va lf hl hv ip im ic : Bool)
    (hhl : hl = false) (hhv : hv = false) (hic : ic = true) :
    (renderCore sa ha se sr edf va lf hl hv ip im ic).shouldShowLoginForm = true ∧
    (renderCore sa ha se sr edf va lf hl hv ip im ic).shouldShowValidateCodeForm = false ∧
    (renderCore sa ha se sr edf va lf hl hv ip im ic).shouldShowUnlinkLoginForm = false ∧
    (renderCore sa ha se sr edf va lf hl hv ip im ic).shouldShowChooseSSOOrMagicCode = false ∧
    (renderCore sa ha se sr edf va lf hl hv ip im ic).shouldShowEmailDeliveryFailurePage = false ∧
    (renderCore sa ha se sr edf va lf hl hv ip im ic).shouldInitiateSAMLLogin = false := by
  revert hhl hhv hic
  revert sa ha se sr edf va lf hl hv ip im ic
  decide

/-- Claim C7: on a leader client with neither a login nor a validate code
entered, only the login form is shown; every other form flag and the SAML
initiation flag are false, for all account states. -/
theorem leader_without_credentials_shows_loginForm_only (env : Env) (i : SignInInput)
    (hhl : i.hasLogin = false) (hhv : i.hasValidateCode = false)
    (hic : i.isClientTheLeader = true) :
    (getRenderOptions env i).shouldShowLoginForm = true ∧
    (getRenderOptions env i).shouldShowValidateCodeForm = false ∧
    (getRenderOptions env i).shouldShowUnlinkLoginForm = false ∧
    (getRenderOptions env i).shouldShowChooseSSOOrMagicCode = false ∧
    (getRenderOptions env i).shouldShowEmailDeliveryFailurePage = false ∧
    (getRenderOptions env i).shouldInitiateSAMLLogin = false := by
  rw [getRenderOptions_eq_core]
  exact renderCore_leader_fresh _ _ _ _ _ _ _ _ _ _ _ _ hhl hhv hic

/-- Witness for claim C7 at a concrete input. -/
theorem leader_without_credentials_witness :
    freshLeaderInput.hasLogin = false ∧
    freshLeaderInput.hasValidateCode = false ∧
    freshLeaderInput.isClientTheLeader = true ∧
    (getRenderOptions envMobile freshLeaderInput).shouldShowLoginForm = true :=
  ⟨by decide, by decide, by decide,
    (leader_without_credentials_shows_loginForm_only envMobile freshLeaderInput
      (by decide) (by decide) (by decide)).1⟩

theorem renderCore_unlink (sa ha se sr edf va lf hl hv ip im ic : Bool)
    (hip : ip = false) (hva : va = false) (hhl : hl = true) (hedf : edf = false) :
    (renderCore sa ha se sr edf va lf hl hv ip im ic).shouldShowUnlinkLoginForm = true := by
  revert hip hva hhl hedf
  revert sa ha se sr edf va lf hl hv ip im ic
  decide

/-- Claim C8: a login entered for a non-primary, non-validated account with no
email delivery failure makes `shouldShowUnlinkLoginForm` true. -/
theorem unvalidated_secondary_login_shows_unlink (env : Env) (i : SignInInput)
    (hip : i.isPrimaryLogin = false)
    (hva : i.account.validated.getD false = false)
    (hhl : i.hasLogin = true)
    (hedf : i.account.hasEmailDeliveryFailure.getD false = false) :
    (getRenderOptions env i).shouldShowUnlinkLoginForm = true := by
  rw [getRenderOptions_eq_core]
  exact renderCore_unlink _ _ _ _ _ _ _ _ _ _ _ _ hip hva hhl hedf

/-- Witness for claim C8 at a concrete input. -/
theorem unvalidated_secondary_login_witness :
    secondaryLoginInput.isPrimaryLogin = false ∧
    secondaryLoginInput.account.validated.getD false = false ∧
    secondaryLoginInput.hasLogin = true ∧
    secondaryLoginInput.account.hasEmailDeliveryFailure.getD false = false ∧
    (getRenderOptions envMobile secondaryLoginInput).shouldShowUnlinkLoginForm = true :=
  ⟨by decide, by decide, by decide, by decide,
    unvalidated_secondary_login_shows_unlink envMobile secondaryLoginInput
      (by decide) (by decide) (by decide) (by decide)⟩

/-- Claim C9: `getRenderOptions` is deterministic — two evaluations on equal
inputs under the same environment give equal outputs. -/
theorem getRenderOptions_deterministic (env : Env) (i j : SignInInput) (h : i = j) :
    getRenderOptions env i = getRenderOptions env j := by
  rw [h]

/-- Witness for claim C9 at a concrete input. -/
theorem getRenderOptions_deterministic_witness :
    getRenderOptions envWeb plainInput = getRenderOptions envWeb plainInput :=
  getRenderOptions_deterministic envWeb plainInput plainInput rfl

theorem renderCore_empty_account (sa ha se sr edf va lf hl hv ip im ic : Bool)
    (hha : ha = false) :
    (renderCore sa ha se sr edf va lf hl hv ip im ic).shouldShowValidateCodeForm = false ∧
    (renderCore sa ha se sr edf va lf hl hv ip im ic).shouldShowChooseSSOOrMagicCode = false ∧
    (renderCore sa ha se sr edf va lf hl hv ip im ic).shouldInitiateSAMLLogin = false := by
  revert hha
  revert sa ha se sr edf va lf hl hv ip im ic
  decide

/-- Claim C10: with an empty account record, `shouldShowValidateCodeForm`,
`shouldShowChooseSSOOrMagicCode` and `shouldInitiateSAMLLogin` are all false,
for every remaining input, platform and feature flag. -/
theorem empty_account_disables_code_and_sso_flags (env : Env) (i : SignInInput)
    (hacc : i.account.isEmpty = true) :
    (getRenderOptions env i).shouldShowValidateCodeForm = false ∧
    (getRenderOptions env i).shouldShowChooseSSOOrMagicCode = false ∧
    (getRenderOptions env i).shouldInitiateSAMLLogin = false := by
  have hha : (!i.account.isEmpty) = false := by rw [hacc]; rfl
  rw [getRenderOptions_eq_core]
  exact renderCore_empty_account _ _ _ _ _ _ _ _ _ _ _ _ hha

/-- Witness for claim C10 at a concrete input. -/
theorem empty_account_witness :
    emptyAccountInput.account.isEmpty = true ∧
    (getRenderOptions envWeb emptyAccountInput).shouldShowValidateCodeForm = false ∧
    (getRenderOptions envWeb emptyAccountInput).shouldShowChooseSSOOrMagicCode = false ∧
    (getRenderOptions envWeb emptyAccountInput).shouldInitiateSAMLLogin = false :=
  ⟨by decide,
    (empty_account_disables_code_and_sso_flags envWeb emptyAccountInput (by decide)).1,
    (empty_account_disables_code_and_sso_flags envWeb emptyAccountInput (by decide)).2.1,
    (empty_account_disables_code_and_sso_flags envWeb emptyAccountInput (by decide)).2.2⟩

end SignInPage
